import Mathlib

/-!
Shallow embedding of the printer-receiver core (pi_server/printer_handler.py
and pi_server/job_queue.py) and proofs about its specified behaviour.

Bytes are modelled as `Nat` values, byte strings as `List Nat`.  Hardware
effects (USB reads, the feed command, chunk writes, reinitialization) are
modelled by explicit outcome environments passed to the embedded functions,
so that every code path of the source is a case of a total Lean function.
-/

/-- Error codes returned by the handler (`printer_handler.py`). -/
inductive ErrorCode where
  | NO_PRINTER
  | OUT_OF_PAPER
  | PRINTER_OFFLINE
  | PRINTER_ERROR
deriving DecidableEq

/-- Outcome of one attempt to read the status byte inside
`_read_status_byte` (printer_handler.py lines 168-206): the device answered
with a byte (`ok`), the USB read raised (`errRead`), the worker thread
exceeded its join deadline (`timeout`), or the transport has no input
endpoint (`unsupported`, the `hasattr` guard fails and no value is set). -/
inductive ReadOutcome where
  | ok (b : Nat)
  | errRead
  | timeout
  | unsupported
deriving DecidableEq

/-- Embedding of `_read_status_byte`: every outcome other than a received
byte is collapsed to `None` (the source returns `None` when the worker is
still alive, when `status_result['error']` is set, and when no value was
stored). -/
def read_status_byte : ReadOutcome → Option Nat
  | .ok b => some b
  | .errRead => none
  | .timeout => none
  | .unsupported => none

/-- Outcome of the raw feed operation inside `_feed_with_timeout`
(printer_handler.py lines 118-166): the feed command completed (`ok`),
raised an exception (`exn`), or the worker thread outlived its 2 s join
deadline (`timeout`). -/
inductive FeedOutcome where
  | ok
  | exn
  | timeout
deriving DecidableEq

/-- Embedding of `_feed_with_timeout` reduced to the success boolean the
caller consumes: `True` exactly when the feed operation completed without
error; a raised exception or a deadline overrun yields `False` (the source
returns `(False, message)` in those cases). -/
def feed_with_timeout : FeedOutcome → Bool
  | .ok => true
  | .exn => false
  | .timeout => false

/-- Environment for one `check_paper_status` call: the outcome of the
status read before the feed, of the feed itself, and of the status read
after the feed. -/
structure ProbeEnv where
  before : ReadOutcome
  feed : FeedOutcome
  after : ReadOutcome
deriving DecidableEq

/-- Result dictionary of `check_paper_status`: the `paper_ok` boolean and
the optional `error_code` entry. -/
structure PaperStatus where
  paper_ok : Bool
  error_code : Option ErrorCode
deriving DecidableEq

/-- Bit test performed on a received status byte (printer_handler.py lines
222-224 and 238-240): bit 0x08 is paper end, bit 0x20 is cover open. -/
def badStatusBits (b : Nat) : Bool :=
  (b.land 0x08 != 0) || (b.land 0x20 != 0)

/-- Tail of `check_paper_status` after the before-feed status check
(printer_handler.py lines 227-249): run the feed probe, read the status
byte again, decide from the after byte when present, otherwise fall back
to the feed outcome. -/
def check_paper_after (env : ProbeEnv) : PaperStatus :=
  let feed_success := feed_with_timeout env.feed
  match read_status_byte env.after with
  | some b =>
    if badStatusBits b then ⟨false, some .OUT_OF_PAPER⟩
    else ⟨true, none⟩
  | none =>
    if feed_success then ⟨true, none⟩
    else ⟨false, some .OUT_OF_PAPER⟩

/-- Embedding of `check_paper_status` (printer_handler.py lines 208-253).
`connected` is `self.printer_connected and self.printer is not None`.  The
source wraps the body in `try/except` returning OUT_OF_PAPER; in this
embedding every internal operation is already total, so the handler's
catch-all arm has no reachable case. -/
def check_paper_status (connected : Bool) (env : ProbeEnv) : PaperStatus :=
  if !connected then ⟨false, some .NO_PRINTER⟩
  else
    match read_status_byte env.before with
    | some b =>
      if badStatusBits b then ⟨false, some .OUT_OF_PAPER⟩
      else check_paper_after env
    | none => check_paper_after env

/-- Substring test used for Python `pat in s` on byte strings. -/
def containsSub (pat l : List Nat) : Bool :=
  (List.range (l.length + 1)).any (fun i => pat.isPrefixOf (l.drop i))

/-- Embedding of Python `data.rfind(pat)`: the largest index at which
`pat` occurs in `data`, or `none` when it does not occur (the source
compares the result against `-1` via `cut_pos > 0`). -/
def rfindPat (data pat : List Nat) : Option Nat :=
  ((List.range (data.length + 1)).filter
    (fun i => pat.isPrefixOf (data.drop i))).getLast?

/-- Byte string `b'\x1dV\x42\x00'` (GS V 66 0, partial cut),
printer_handler.py line 314. -/
def feed_cut_pattern : List Nat := [0x1d, 0x56, 0x42, 0x00]

/-- Walk `feed_start` backwards over newline bytes, the `while` loop at
printer_handler.py lines 330-331. -/
def backNewlines (data : List Nat) : Nat → Nat
  | 0 => 0
  | i + 1 => if data.getD i 0 = 10 then backNewlines data i else i + 1

/-- Embedding of the feed/cut separation in `print_escpos`
(printer_handler.py lines 312-337): returns `(main_data, feed_cut_data)`.
Python's `cut_pos > len(data) - 20` over possibly negative ints is
rendered as `cutPos + 20 > data.length`, and `max(0, ...)` on ints is
truncated `Nat` subtraction. -/
def splitFeedCut (data : List Nat) : List Nat × Option (List Nat) :=
  match rfindPat data feed_cut_pattern with
  | none => (data, none)
  | some cutPos =>
    if cutPos > 0 ∧ cutPos + 20 > data.length then
      let before_cut := (data.take cutPos).drop (cutPos - 10)
      if containsSub [10, 10, 10] before_cut || containsSub [10, 10] before_cut then
        let feed_start := backNewlines data cutPos - 2
        (data.take feed_start, some (data.drop feed_start))
      else (data, none)
    else (data, none)

/-- Classification flags of one raised write exception, abstracting the
substring tests the source performs on the lowercased error text:
`timeout` is `'timeout' in error_text`, `offline` is any of the offline
keywords (line 451), `paperKw` is any of the paper keywords (line 460). -/
structure ErrInfo where
  timeout : Bool
  offline : Bool
  paperKw : Bool
deriving DecidableEq

/-- Outcome of one `self.printer._raw(chunk)` call in the main write loop. -/
inductive WriteOutcome where
  | ok
  | err (e : ErrInfo)
deriving DecidableEq

/-- Outcome of the `self._initialize_printer()` call made from the
timeout branch of the write loop (printer_handler.py line 367).  The call
is not a plain reconnect: on a successful USB reconnect it invokes
`self.test_print()` (line 52), which re-enters `print_escpos` (line 543)
on the same thread while the outer submit still holds the non-reentrant
`print_lock` it acquired at line 298.
  * `failed`: `_initialize_printer` raised, or returned with
    `printer_connected` false / `printer` None — the surrounding
    `try/except` (lines 366-381) turns this into an OUT_OF_PAPER return.
  * `okQuiet`: reconnect succeeded on a branch with no test print
    (network or serial, lines 57-76) — the timeout branch retries the
    same chunk.
  * `okTestNotReady`: USB reconnect succeeded and the nested test
    print's paper probe reported not-ready, so the nested `print_escpos`
    returned OUT_OF_PAPER at line 289 before touching the lock; the
    (ignored) test-print result lets the reconnect return and the
    timeout branch retries the same chunk.
  * `okTestReady`: USB reconnect succeeded and the nested test print's
    paper probe reported ready, so the nested `print_escpos` blocks
    forever at `with self.print_lock:` (line 298) on the lock the outer
    call already holds — the submit never returns (deadlock). -/
inductive ReinitOutcome where
  | failed
  | okQuiet
  | okTestNotReady
  | okTestReady
deriving DecidableEq

/-- Result kind of the chunked write loop: all chunks written (`done`),
returned OUT_OF_PAPER from the timeout branch (`oop`), re-raised a
non-timeout error to the outer handler (`raised`), blocked forever on the
re-entrant test print of a successful USB reinitialization (`deadlock`,
see `ReinitOutcome.okTestReady`), or the marker for the `chunkSize = 0`
case in which the source loop would never terminate (`nonterm`;
unreachable in the driver because `_load_chunk_size` clamps the chunk
size to at least 64). -/
inductive LoopOutcome where
  | done
  | oop
  | raised (e : ErrInfo)
  | deadlock
  | nonterm
deriving DecidableEq

/-- Trace of the chunked write loop: the successfully written chunks, the
chunk length of every attempted write (successful or not), and how the
loop ended. -/
structure LoopRes where
  writes : List (List Nat)
  attempts : List Nat
  outcome : LoopOutcome
deriving DecidableEq

/-- Embedding of the main chunk-write loop of `print_escpos`
(printer_handler.py lines 345-392).  `wenv idx` is the outcome of the
`idx`-th `_raw` call, `reinit` is the outcome of the one
`_initialize_printer()` call the timeout branch may make (see
`ReinitOutcome`, including the re-entrant USB test print), `rem` is the
unsent suffix `main_data[index:]`, `reinited` is `reinitialized_once`.
The source never reassigns `current_chunk_size`, so `c` is constant
across iterations.  On a timeout with `reinited` already set the source
returns OUT_OF_PAPER; a failed reinitialization returns OUT_OF_PAPER; a
reinitialization that re-enters `print_escpos` with a ready nested probe
blocks forever on the held lock (`deadlock`); otherwise the same chunk is
retried; on a non-timeout error the source re-raises. -/
def chunk_write_loop (wenv : Nat → WriteOutcome) (reinit : ReinitOutcome)
    (c : Nat) (rem : List Nat) (reinited : Bool) (idx : Nat) : LoopRes :=
  if hrem : rem = [] then ⟨[], [], .done⟩
  else if hc : c = 0 then ⟨[], [], .nonterm⟩
  else
    match wenv idx with
    | .ok =>
      let r := chunk_write_loop wenv reinit c (rem.drop (min c rem.length)) reinited (idx + 1)
      ⟨rem.take (min c rem.length) :: r.writes, min c rem.length :: r.attempts, r.outcome⟩
    | .err e =>
      if e.timeout then
        if hri : reinited then ⟨[], [min c rem.length], .oop⟩
        else if reinit = .failed then ⟨[], [min c rem.length], .oop⟩
        else if reinit = .okTestReady then ⟨[], [min c rem.length], .deadlock⟩
        else
          let r := chunk_write_loop wenv reinit c rem true (idx + 1)
          ⟨r.writes, min c rem.length :: r.attempts, r.outcome⟩
      else ⟨[], [min c rem.length], .raised e⟩
termination_by (rem.length, if reinited then 1 else 2)
decreasing_by
  all_goals first
  | (apply Prod.Lex.left
     have h1 : rem.length ≠ 0 := fun h => hrem (List.eq_nil_of_length_eq_zero h)
     simp [List.length_drop]
     omega)
  | (apply Prod.Lex.right
     simp [hri])

/-- Classification of a raised (non-timeout re-raised or escaping) write
exception by the outer handler of `print_escpos` (printer_handler.py lines
437-499): offline keywords first, then paper keywords, then — while
connected — a timeout maps to OUT_OF_PAPER and every remaining error
(USB patterns included) to PRINTER_ERROR. -/
def classify_error (connected : Bool) (e : ErrInfo) : ErrorCode :=
  if e.offline then .PRINTER_OFFLINE
  else if e.paperKw then .OUT_OF_PAPER
  else if connected && e.timeout then .OUT_OF_PAPER
  else .PRINTER_ERROR

/-- Result dictionary of `print_escpos` reduced to the `success` flag and
the optional `error_code` entry. -/
structure SubmitResult where
  success : Bool
  error_code : Option ErrorCode
deriving DecidableEq

/-- Observable trace of one `print_escpos` call: its result, whether the
serialization lock was acquired, the payload-bearing transport writes in
order, and the attempted chunk lengths of the main write loop. -/
structure SubmitTrace where
  result : SubmitResult
  lockAcquired : Bool
  writes : List (List Nat)
  attempts : List Nat
deriving DecidableEq

/-- Embedding of `print_escpos` (printer_handler.py lines 255-500).
`connected` is the entry guard, `penv` drives the fast-path
`check_paper_status`, `c` is `self.write_chunk_size`, `wenv`/`reinit`
drive the chunk loop, and `fcOk` is whether the separately sent feed/cut
write succeeds (its failure is swallowed at lines 415-417, the job still
succeeds).  The 2-byte DLE EOT buffer poke and the flush after the loop
carry no payload bytes and are not traced.  The result is `none` when the
call never returns: the `deadlock` outcome (a reinitialization whose
re-entrant USB test print blocks on the already-held non-reentrant
`print_lock`) and the `nonterm` outcome (the infinite loop a zero chunk
size would cause, unreachable behind the `_load_chunk_size` clamp). -/
def print_escpos (connected : Bool) (penv : ProbeEnv) (payload : List Nat)
    (c : Nat) (wenv : Nat → WriteOutcome) (reinit : ReinitOutcome)
    (fcOk : Bool) : Option SubmitTrace :=
  if !connected then some ⟨⟨false, some .NO_PRINTER⟩, false, [], []⟩
  else
    let ps := check_paper_status connected penv
    if !ps.paper_ok then
      some ⟨⟨false, some (ps.error_code.getD .OUT_OF_PAPER)⟩, false, [], []⟩
    else if payload = [] then some ⟨⟨true, none⟩, true, [], []⟩
    else
      let md := splitFeedCut payload
      let r := chunk_write_loop wenv reinit c md.1 false 0
      match r.outcome with
      | .done =>
        let tail : List (List Nat) :=
          match md.2 with
          | some d => if fcOk then [d] else []
          | none => []
        some ⟨⟨true, none⟩, true, r.writes ++ tail, r.attempts⟩
      | .oop => some ⟨⟨false, some .OUT_OF_PAPER⟩, true, r.writes, r.attempts⟩
      | .raised e =>
        some ⟨⟨false, some (classify_error true e)⟩, true, r.writes, r.attempts⟩
      | .deadlock => none
      | .nonterm => none

/-- Embedding of `_load_chunk_size` (printer_handler.py lines 557-566):
the configured value is clamped to `[64, 8192]`; an unset or unparsable
environment value yields the default 128. -/
def load_chunk_size (v : Option Int) : Int :=
  match v with
  | none => 128
  | some value => max 64 (min 8192 value)

/-- State of `PrintJobQueue` as observed by the poller loop
(job_queue.py): the ordered job list, `check_interval`, and the `running`
flag.  Jobs are abstract values of a type `J`. -/
structure QueueState (J : Type) where
  queue : List J
  checkInterval : Nat
  running : Bool
deriving DecidableEq

/-- Interval escalation `min(int(self.check_interval * 1.5), 3600)`
(job_queue.py lines 128 and 133).  For a nonnegative integer interval,
`int(i * 1.5)` truncates the exactly representable float `1.5 * i`, which
is `3 * i / 2` in truncated natural division. -/
def nextInterval (i : Nat) : Nat := min (3 * i / 2) 3600

/-- Drain pass over a snapshot of the queue (job_queue.py lines 112-118):
submit jobs in order, stop at the first failure.  Returns the jobs whose
submit was attempted (in order) and the `all_succeeded` flag.
`printOk j` is whether `print_func(job)` reports success for job `j`. -/
def drainTrace {J : Type} (printOk : J → Bool) : List J → List J × Bool
  | [] => ([], true)
  | j :: rest =>
    if printOk j then
      let r := drainTrace printOk rest
      (j :: r.1, r.2)
    else ([j], false)

/-- Outcome of one iteration of `_periodic_check_loop`: the loop returns
(`exit`), or continues with a new state, the computed sleep time, whether
`check_paper_func` was consulted this iteration, and the jobs submitted by
the drain pass. -/
inductive StepOutcome (J : Type) where
  | exit
  | cont (s : QueueState J) (sleep : Nat) (checked : Bool) (printed : List J)
deriving DecidableEq

/-- Embedding of one iteration of `PrintJobQueue._periodic_check_loop`
(job_queue.py lines 93-144).  `paperOk` is the `paper_ok` field of this
iteration's `check_paper_func()` result (consulted only when the queue is
nonempty); `printOk` gives each job's submit outcome.  The `while
self.running` test at the loop head and the per-second `running` test
inside the sleep both stop the loop, modelled as `exit`; a cleared drain
resets the interval to 45, a failed drain or a not-ready status escalates
it with `nextInterval` and leaves the queue untouched (`clear_queue` runs
only when `all_succeeded`), and an empty queue sleeps the base 45 s with
no status check. -/
def periodic_check_step {J : Type} (paperOk : Bool) (printOk : J → Bool)
    (s : QueueState J) : StepOutcome J :=
  if !s.running then .exit
  else if s.queue.length > 0 then
    if paperOk then
      let d := drainTrace printOk s.queue
      if d.2 then
        .cont ⟨[], 45, s.running⟩ 45 true d.1
      else
        .cont ⟨s.queue, nextInterval s.checkInterval, s.running⟩
          (nextInterval s.checkInterval) true d.1
    else
      .cont ⟨s.queue, nextInterval s.checkInterval, s.running⟩
        (nextInterval s.checkInterval) true []
  else
    .cont s 45 false []

/-! ## Helper lemmas -/

lemma check_paper_after_not_ok (env : ProbeEnv)
    (h : (check_paper_after env).paper_ok = false) :
    (check_paper_after env).error_code = some .OUT_OF_PAPER := by
  unfold check_paper_after at h ⊢
  cases ha : read_status_byte env.after with
  | none =>
    cases hf : feed_with_timeout env.feed <;> simp only [ha, hf] at h ⊢ <;> simp_all
  | some b =>
    by_cases hb : badStatusBits b = true <;> simp only [ha, hb] at h ⊢ <;> simp_all

lemma check_paper_status_not_ok (env : ProbeEnv)
    (h : (check_paper_status true env).paper_ok = false) :
    (check_paper_status true env).error_code = some .OUT_OF_PAPER := by
  unfold check_paper_status at h ⊢
  simp only [Bool.not_true, Bool.false_eq_true, if_false] at h ⊢
  cases hb0 : read_status_byte env.before with
  | none =>
    simp only [hb0] at h ⊢
    exact check_paper_after_not_ok env h
  | some b =>
    by_cases hb : badStatusBits b = true
    · simp [hb0, hb]
    · simp only [hb0, hb, Bool.false_eq_true, if_false] at h ⊢
      exact check_paper_after_not_ok env h

/-! ## Claim theorems: the status probe -/

/-- C2: on a connected printer, a status byte (read before or after the
feed attempt) with the paper-end bit 0x08 or cover-open bit 0x20 set makes
`check_paper_status` report not-ready with OUT_OF_PAPER; when both status
reads are inconclusive the result is ready exactly when the feed probe
succeeded and not-ready when it failed or timed out. -/
theorem C2_status_probe_decision (env : ProbeEnv) :
    (∀ b, read_status_byte env.before = some b → badStatusBits b = true →
      check_paper_status true env = ⟨false, some .OUT_OF_PAPER⟩) ∧
    (∀ b, read_status_byte env.after = some b → badStatusBits b = true →
      check_paper_status true env = ⟨false, some .OUT_OF_PAPER⟩) ∧
    (read_status_byte env.before = none → read_status_byte env.after = none →
      check_paper_status true env =
        if feed_with_timeout env.feed then ⟨true, none⟩
        else ⟨false, some .OUT_OF_PAPER⟩) := by
  refine ⟨?_, ?_, ?_⟩
  · intro b hb hbad
    simp [check_paper_status, hb, hbad]
  · intro b hb hbad
    unfold check_paper_status
    cases hb0 : read_status_byte env.before with
    | none => simp [check_paper_after, hb, hbad]
    | some b0 =>
      by_cases hbad0 : badStatusBits b0 = true
      · simp [hbad0]
      · simp [hbad0, check_paper_after, hb, hbad]
  · intro hb ha
    simp [check_paper_status, hb, check_paper_after, ha]

/-- Witness for C2 at concrete probe outcomes: a paper-end byte before the
feed, a cover-open byte after the feed, and the double-inconclusive
fallback to a successful feed. -/
theorem C2_status_probe_decision_witness :
    check_paper_status true ⟨.ok 0x08, .ok, .ok 0⟩ = ⟨false, some .OUT_OF_PAPER⟩ ∧
    check_paper_status true ⟨.errRead, .timeout, .ok 0x20⟩ = ⟨false, some .OUT_OF_PAPER⟩ ∧
    check_paper_status true ⟨.timeout, .ok, .errRead⟩ = ⟨true, none⟩ := by
  refine ⟨?_, ?_, ?_⟩
  · exact (C2_status_probe_decision ⟨.ok 0x08, .ok, .ok 0⟩).1 0x08 rfl (by decide)
  · exact (C2_status_probe_decision ⟨.errRead, .timeout, .ok 0x20⟩).2.1 0x20 rfl (by decide)
  · have h := (C2_status_probe_decision ⟨.timeout, .ok, .errRead⟩).2.2 rfl rfl
    simpa using h

/-- C6 counterexample: both status reads raise (an internal status-read
failure) while the feed probe succeeds, and `check_paper_status` returns a
READY result, contradicting the claim that every internal failure yields a
not-ready result. -/
theorem C6_counterexample :
    check_paper_status true ⟨.errRead, .ok, .errRead⟩ = ⟨true, none⟩ ∧
    (check_paper_status true ⟨.errRead, .ok, .errRead⟩).paper_ok ≠ false := by
  refine ⟨by decide, by decide⟩

/-- C6 (amended): `check_paper_status` is a total function of the probe
outcomes — every internal failure (feed exception, status-read exception,
probe-worker timeout) is caught and produces a returned status rather than
a propagated exception; a not-ready result always carries OUT_OF_PAPER (or
NO_PRINTER when disconnected); and when the failures leave no positive
signal at all (both status reads inconclusive and the feed probe failed or
timed out) the result is not-ready with OUT_OF_PAPER.  A failure masked by
a positive signal (clean status byte, or successful feed) can still yield
ready. -/
theorem C6_probe_never_raises (connected : Bool) (env : ProbeEnv) :
    ((check_paper_status connected env).paper_ok = false →
      (check_paper_status connected env).error_code = some .OUT_OF_PAPER ∨
      (check_paper_status connected env).error_code = some .NO_PRINTER) ∧
    (connected = false → check_paper_status connected env = ⟨false, some .NO_PRINTER⟩) ∧
    (connected = true → read_status_byte env.before = none →
      read_status_byte env.after = none → feed_with_timeout env.feed = false →
      check_paper_status connected env = ⟨false, some .OUT_OF_PAPER⟩) := by
  refine ⟨?_, ?_, ?_⟩
  · intro h
    cases connected with
    | false => simp [check_paper_status]
    | true => exact Or.inl (check_paper_status_not_ok env h)
  · intro h
    subst h
    simp [check_paper_status]
  · intro hc hb ha hf
    subst hc
    simp [check_paper_status, hb, check_paper_after, ha, hf]

/-- Witness for C6 (amended): a disconnected probe, and a probe in which
the status reads time out and the feed raises. -/
theorem C6_probe_never_raises_witness :
    check_paper_status false ⟨.ok 0, .ok, .ok 0⟩ = ⟨false, some .NO_PRINTER⟩ ∧
    check_paper_status true ⟨.timeout, .exn, .timeout⟩ = ⟨false, some .OUT_OF_PAPER⟩ := by
  refine ⟨?_, ?_⟩
  · exact (C6_probe_never_raises false ⟨.ok 0, .ok, .ok 0⟩).2.1 rfl
  · exact (C6_probe_never_raises true ⟨.timeout, .exn, .timeout⟩).2.2 rfl rfl rfl rfl

/-! ## Claim theorems: submit fast path and empty payload -/

/-- C5: on a connected printer whose fast-path status probe reports
not-ready, `print_escpos` returns OUT_OF_PAPER immediately: the
serialization lock is not acquired and no payload bytes are written. -/
theorem C5_fast_path_out_of_paper (penv : ProbeEnv) (payload : List Nat)
    (c : Nat) (wenv : Nat → WriteOutcome) (reinit : ReinitOutcome)
    (fcOk : Bool)
    (h : (check_paper_status true penv).paper_ok = false) :
    print_escpos true penv payload c wenv reinit fcOk =
      some ⟨⟨false, some .OUT_OF_PAPER⟩, false, [], []⟩ := by
  have hec := check_paper_status_not_ok penv h
  simp [print_escpos, h, hec]

/-- Witness for C5: a probe that sees the paper-end bit before the feed. -/
theorem C5_fast_path_out_of_paper_witness :
    (check_paper_status true ⟨.ok 0x08, .ok, .ok 0⟩).paper_ok = false ∧
    print_escpos true ⟨.ok 0x08, .ok, .ok 0⟩ [1, 2, 3] 128 (fun _ => .ok)
        .okQuiet true =
      some ⟨⟨false, some .OUT_OF_PAPER⟩, false, [], []⟩ :=
  ⟨by decide,
   C5_fast_path_out_of_paper ⟨.ok 0x08, .ok, .ok 0⟩ [1, 2, 3] 128 (fun _ => .ok)
     .okQuiet true (by decide)⟩

/-- C8: an empty payload on a connected, ready printer succeeds trivially
with no transport write of the payload. -/
theorem C8_empty_payload (penv : ProbeEnv) (c : Nat)
    (wenv : Nat → WriteOutcome) (reinit : ReinitOutcome) (fcOk : Bool)
    (h : (check_paper_status true penv).paper_ok = true) :
    print_escpos true penv [] c wenv reinit fcOk =
      some ⟨⟨true, none⟩, true, [], []⟩ := by
  simp [print_escpos, h]

/-- Witness for C8 with a clean status byte on both reads. -/
theorem C8_empty_payload_witness :
    (check_paper_status true ⟨.ok 0, .ok, .ok 0⟩).paper_ok = true ∧
    print_escpos true ⟨.ok 0, .ok, .ok 0⟩ [] 128 (fun _ => .ok) .okQuiet true =
      some ⟨⟨true, none⟩, true, [], []⟩ :=
  ⟨by decide,
   C8_empty_payload ⟨.ok 0, .ok, .ok 0⟩ 128 (fun _ => .ok) .okQuiet true
     (by decide)⟩

/-! ## Helper lemmas: the drain pass -/

lemma drainTrace_all_ok {J : Type} (printOk : J → Bool) (l : List J)
    (h : ∀ j ∈ l, printOk j = true) : drainTrace printOk l = (l, true) := by
  induction l with
  | nil => rfl
  | cons j rest ih =>
    have hj := h j (by simp)
    have hrest := ih (fun x hx => h x (by simp [hx]))
    simp [drainTrace, hj, hrest]

lemma drainTrace_first_fail {J : Type} (printOk : J → Bool) (pre post : List J)
    (jk : J) (hpre : ∀ j ∈ pre, printOk j = true) (hjk : printOk jk = false) :
    drainTrace printOk (pre ++ jk :: post) = (pre ++ [jk], false) := by
  induction pre with
  | nil => simp [drainTrace, hjk]
  | cons j rest ih =>
    have hj := hpre j (by simp)
    have hrest := ih (fun x hx => hpre x (by simp [hx]))
    simp [drainTrace, hj, hrest]

lemma drainTrace_complete {J : Type} (printOk : J → Bool) (l : List J)
    (h : (drainTrace printOk l).2 = true) : ∀ j ∈ l, printOk j = true := by
  induction l with
  | nil => simp
  | cons j rest ih =>
    by_cases hj : printOk j = true
    · simp only [drainTrace, hj, if_true] at h
      intro x hx
      rcases List.mem_cons.mp hx with hx | hx
      · subst hx; exact hj
      · exact ih h x hx
    · simp [drainTrace, hj] at h

/-! ## Claim theorems: the poller loop -/

/-- C3: when a drain pass over a nonempty queue hits a failing job `jk`
(after a prefix of successful jobs), the pass stops at `jk` — exactly the
jobs up to and including `jk` are submitted — and the queue afterwards
still holds every job from `jk` onward in the original order (the whole
queue is in fact untouched); and the queue is cleared only when every
job's submit succeeded. -/
theorem C3_failed_drain_keeps_jobs {J : Type} (printOk : J → Bool) :
    (∀ (s : QueueState J) (pre post : List J) (jk : J),
      s.running = true → s.queue = pre ++ jk :: post →
      (∀ j ∈ pre, printOk j = true) → printOk jk = false →
      periodic_check_step true printOk s =
        .cont ⟨pre ++ jk :: post, nextInterval s.checkInterval, true⟩
          (nextInterval s.checkInterval) true (pre ++ [jk])) ∧
    (∀ (s : QueueState J) (s' : QueueState J) (slp : Nat) (chk : Bool)
      (pr : List J),
      s.running = true → s.queue ≠ [] →
      periodic_check_step true printOk s = .cont s' slp chk pr →
      s'.queue = [] → ∀ j ∈ s.queue, printOk j = true) := by
  constructor
  · intro s pre post jk hrun hq hpre hjk
    have hd := drainTrace_first_fail printOk pre post jk hpre hjk
    have hlen : s.queue.length > 0 := by simp [hq]
    simp [periodic_check_step, hrun, hlen, hq, hd]
  · intro s s' slp chk pr hrun hne hstep hq'
    by_cases hall : (drainTrace printOk s.queue).2 = true
    · exact drainTrace_complete printOk s.queue hall
    · exfalso
      rw [Bool.not_eq_true] at hall
      have hlen : s.queue.length > 0 := List.length_pos.mpr hne
      have hform : (StepOutcome.cont
          ⟨s.queue, nextInterval s.checkInterval, s.running⟩
          (nextInterval s.checkInterval) true
          (drainTrace printOk s.queue).1 : StepOutcome J) = .cont s' slp chk pr := by
        rw [← hstep]
        simp [periodic_check_step, hrun, hlen, hall]
      injection hform with h1 h2 h3 h4
      subst h1
      simp only [] at hq'
      exact hne hq'

/-- Witness for C3: queue `[0, 1, 2]` where job `1` fails: the drain
submits `[0, 1]`, the queue is left as `[0, 1, 2]`, and the clear-only-on-
success direction applied to the same pass. -/
theorem C3_failed_drain_keeps_jobs_witness :
    periodic_check_step true (fun j : Nat => j != 1) ⟨[0, 1, 2], 45, true⟩ =
      .cont ⟨[0] ++ 1 :: [2], nextInterval 45, true⟩ (nextInterval 45) true
        ([0] ++ [1]) :=
  (C3_failed_drain_keeps_jobs (fun j : Nat => j != 1)).1
    ⟨[0, 1, 2], 45, true⟩ [0] [2] 1 rfl rfl (by decide) (by decide)

/-- C10: after a drain in which job `jk` fails (with `k > 1`, i.e. a
nonempty prefix of jobs that were already successfully printed), the queue
equals the entire queue as it was at the start of the drain — the
already-printed prefix is retained, because `clear_queue` runs only when
every job succeeded — and on the next ready drain in which every submit
succeeds, those prefix jobs are submitted to the printer again. -/
theorem C10_printed_prefix_resubmitted {J : Type} (printOk printOk' : J → Bool)
    (s : QueueState J) (pre post : List J) (jk : J)
    (hrun : s.running = true) (hq : s.queue = pre ++ jk :: post)
    (hpre : ∀ j ∈ pre, printOk j = true) (hjk : printOk jk = false)
    (hall : ∀ j ∈ s.queue, printOk' j = true) :
    (∃ slp, periodic_check_step true printOk s =
      .cont ⟨s.queue, nextInterval s.checkInterval, true⟩ slp true (pre ++ [jk])) ∧
    periodic_check_step true printOk'
        ⟨s.queue, nextInterval s.checkInterval, true⟩ =
      .cont ⟨[], 45, true⟩ 45 true s.queue := by
  constructor
  · refine ⟨nextInterval s.checkInterval, ?_⟩
    have hd := drainTrace_first_fail printOk pre post jk hpre hjk
    have hlen : s.queue.length > 0 := by simp [hq]
    simp [periodic_check_step, hrun, hlen, hq, hd]
  · have hd := drainTrace_all_ok printOk' s.queue hall
    have hlen : s.queue.length > 0 := by simp [hq]
    simp [periodic_check_step, hlen, hd]

/-- Witness for C10: queue `[0, 1, 2]`, job `1` fails after job `0` was
printed; the queue keeps all three jobs and the next fully successful
drain submits `0` again. -/
theorem C10_printed_prefix_resubmitted_witness :
    (∃ slp, periodic_check_step true (fun j : Nat => j != 1) ⟨[0, 1, 2], 45, true⟩ =
      .cont ⟨[0, 1, 2], nextInterval 45, true⟩ slp true ([0] ++ [1])) ∧
    periodic_check_step true (fun _ : Nat => true) ⟨[0, 1, 2], nextInterval 45, true⟩ =
      .cont ⟨[], 45, true⟩ 45 true [0, 1, 2] :=
  C10_printed_prefix_resubmitted (fun j : Nat => j != 1) (fun _ : Nat => true)
    ⟨[0, 1, 2], 45, true⟩ [0] [2] 1 rfl rfl (by decide) (by decide) (by decide)

/-- C4 counterexample: from the base interval 45, one not-ready result
sets the interval to `min(int(45 * 1.5), 3600) = 67`, not the claim's
exact multiplication `45 × 1.5 = 67.5` — the source truncates with
`int(...)` before capping. -/
theorem C4_counterexample :
    periodic_check_step false (fun _ : Nat => true) ⟨[0], 45, true⟩ =
      .cont ⟨[0], 67, true⟩ 67 true [] ∧
    ((nextInterval 45 : ℚ) ≠ (45 : ℚ) * 1.5) := by
  constructor
  · decide
  · have h : nextInterval 45 = 67 := by decide
    rw [h]
    norm_num

/-- C4 (amended): after each consecutive not-ready status result the poll
interval becomes `min(⌊interval × 1.5⌋, 3600)` (multiplication by 1.5
truncated to an integer, capped at 3600 s), which keeps the interval
sequence monotonically non-decreasing from any interval ≤ 3600; after a
drain in which all jobs succeed the interval resets to 45 s. -/
theorem C4_backoff_monotone_capped {J : Type} (printOk : J → Bool) :
    (∀ (s : QueueState J), s.running = true → s.queue ≠ [] →
      periodic_check_step false printOk s =
        .cont ⟨s.queue, nextInterval s.checkInterval, true⟩
          (nextInterval s.checkInterval) true []) ∧
    (∀ i : Nat, nextInterval i = min (3 * i / 2) 3600) ∧
    (∀ i : Nat, i ≤ 3600 → i ≤ nextInterval i ∧ nextInterval i ≤ 3600) ∧
    (∀ (s : QueueState J), s.running = true → s.queue ≠ [] →
      (∀ j ∈ s.queue, printOk j = true) →
      periodic_check_step true printOk s = .cont ⟨[], 45, true⟩ 45 true s.queue) := by
  refine ⟨?_, fun i => rfl, ?_, ?_⟩
  · intro s hrun hne
    have hlen : s.queue.length > 0 := List.length_pos.mpr hne
    simp [periodic_check_step, hrun, hlen]
  · intro i hi
    unfold nextInterval
    omega
  · intro s hrun hne hall
    have hd := drainTrace_all_ok printOk s.queue hall
    have hlen : s.queue.length > 0 := List.length_pos.mpr hne
    simp [periodic_check_step, hrun, hlen, hd]

/-- Witness for C4 (amended): a not-ready pass escalates 45 to 67 while a
fully successful drain resets 67 to 45. -/
theorem C4_backoff_monotone_capped_witness :
    periodic_check_step false (fun _ : Nat => true) ⟨[5], 45, true⟩ =
      .cont ⟨[5], nextInterval 45, true⟩ (nextInterval 45) true [] ∧
    (45 ≤ nextInterval 45 ∧ nextInterval 45 ≤ 3600) ∧
    periodic_check_step true (fun _ : Nat => true) ⟨[5], 67, true⟩ =
      .cont ⟨[], 45, true⟩ 45 true [5] :=
  ⟨(C4_backoff_monotone_capped (fun _ : Nat => true)).1 ⟨[5], 45, true⟩ rfl
     (by decide),
   (C4_backoff_monotone_capped (fun _ : Nat => true)).2.2.1 45 (by decide),
   (C4_backoff_monotone_capped (fun _ : Nat => true)).2.2.2 ⟨[5], 67, true⟩ rfl
     (by decide) (by decide)⟩

/-- C9 counterexample: with the `running` flag set and an empty queue, the
poller loop does NOT exit — the iteration continues with a 45 s sleep (the
source comment reads: if no queue, keep checking at base interval), so the
poller is still running while the queue is empty, contradicting the claim
that the loop exits to idle once the queue becomes empty. -/
theorem C9_counterexample :
    periodic_check_step true (fun _ : Nat => true) ⟨[], 45, true⟩ =
      .cont ⟨[], 45, true⟩ 45 false [] ∧
    periodic_check_step true (fun _ : Nat => true) ⟨[], 45, true⟩ ≠
      (.exit : StepOutcome Nat) := by
  refine ⟨by decide, by decide⟩

/-- C9 (amended): once started, the poller loop does not exit when the
queue becomes empty: an iteration with an empty queue leaves the state
unchanged and sleeps the base 45 s without consulting the status probe;
the loop exits only when the `running` flag has been cleared (by
`stop_periodic_check`). -/
theorem C9_idle_keeps_running {J : Type} (paperOk : Bool) (printOk : J → Bool)
    (s : QueueState J) :
    (s.running = true → s.queue = [] →
      periodic_check_step paperOk printOk s = .cont s 45 false []) ∧
    (s.running = false → periodic_check_step paperOk printOk s = .exit) := by
  constructor
  · intro hrun hq
    simp [periodic_check_step, hrun, hq]
  · intro hrun
    simp [periodic_check_step, hrun]

/-- Witness for C9 (amended): an empty-queue iteration continues with a
45 s sleep and no status check; a stopped loop exits. -/
theorem C9_idle_keeps_running_witness :
    periodic_check_step false (fun _ : Nat => true) ⟨[], 3600, true⟩ =
      .cont ⟨[], 3600, true⟩ 45 false [] ∧
    periodic_check_step false (fun _ : Nat => true) ⟨[7], 45, false⟩ = .exit :=
  ⟨(C9_idle_keeps_running false (fun _ : Nat => true) ⟨[], 3600, true⟩).1 rfl rfl,
   (C9_idle_keeps_running false (fun _ : Nat => true) ⟨[7], 45, false⟩).2 rfl⟩

/-! ## Helper definitions and lemmas: chunk arithmetic -/

/-- Chunk lengths produced by an error-free run of the write loop over a
payload of length `n` with chunk size `c` (each step writes
`min(current_chunk_size, remaining)` bytes). -/
def chunkSizes (c : Nat) (n : Nat) : List Nat :=
  if n = 0 ∨ c = 0 then []
  else min c n :: chunkSizes c (n - min c n)
termination_by n
decreasing_by
  simp only [not_or] at *
  omega

/-- Chunks written by an error-free run of the write loop. -/
def chunksOf (c : Nat) (l : List Nat) : List (List Nat) :=
  if h : l = [] ∨ c = 0 then []
  else l.take (min c l.length) :: chunksOf c (l.drop (min c l.length))
termination_by l.length
decreasing_by
  simp only [not_or] at h
  have : l.length ≠ 0 := fun hh => h.1 (List.eq_nil_of_length_eq_zero hh)
  simp only [List.length_drop]
  omega

lemma chunksOf_flatten (c : Nat) (hc : c ≠ 0) (l : List Nat) :
    (chunksOf c l).flatten = l := by
  have H : ∀ n (l : List Nat), l.length = n → (chunksOf c l).flatten = l := by
    intro n
    induction n using Nat.strong_induction_on with
    | _ n ih =>
      intro l hn
      subst hn
      by_cases hl : l = []
      · rw [chunksOf, dif_pos (Or.inl hl), hl]
        rfl
      · rw [chunksOf, dif_neg (by simp [hl, hc])]
        have hlen : l.length ≠ 0 := fun hh => hl (List.eq_nil_of_length_eq_zero hh)
        have hd : (l.drop (min c l.length)).length < l.length := by
          simp only [List.length_drop]
          omega
        rw [List.flatten]
        rw [ih _ hd _ rfl]
        exact List.take_append_drop _ l
  exact H l.length l rfl

lemma chunksOf_lengths (c : Nat) (l : List Nat) :
    (chunksOf c l).map List.length = chunkSizes c l.length := by
  have H : ∀ n (l : List Nat), l.length = n →
      (chunksOf c l).map List.length = chunkSizes c l.length := by
    intro n
    induction n using Nat.strong_induction_on with
    | _ n ih =>
      intro l hn
      subst hn
      by_cases hl : l = [] ∨ c = 0
      · rw [chunksOf, dif_pos hl, chunkSizes, if_pos]
        · rfl
        · rcases hl with hl | hl
          · subst hl
            exact Or.inl rfl
          · exact Or.inr hl
      · rw [chunksOf, dif_neg hl, chunkSizes, if_neg]
        · simp only [not_or] at hl
          have hlen : l.length ≠ 0 :=
            fun hh => hl.1 (List.eq_nil_of_length_eq_zero hh)
          have hd : (l.drop (min c l.length)).length < l.length := by
            simp only [List.length_drop]
            omega
          simp only [List.map_cons]
          rw [ih _ hd _ rfl]
          simp only [List.length_take, List.length_drop]
          congr 1
          omega
        · simp only [not_or] at hl
          have hlen : l.length ≠ 0 :=
            fun hh => hl.1 (List.eq_nil_of_length_eq_zero hh)
          omega
  exact H l.length l rfl


lemma rfindPat_eq_none (data pat : List Nat) (a : Nat)
    (hhead : pat.head? = some a) (hmem : a ∉ data) :
    rfindPat data pat = none := by
  unfold rfindPat
  rw [List.getLast?_eq_none_iff, List.filter_eq_nil_iff]
  intro i _ hpre
  rw [List.isPrefixOf_iff_prefix] at hpre
  obtain ⟨t, ht⟩ := hpre
  cases pat with
  | nil => simp at hhead
  | cons p pt =>
    have hp : p = a := by simpa using hhead
    subst hp
    have hmem' : p ∈ data.drop i := by
      rw [← ht]
      simp
    exact hmem (List.drop_subset i data hmem')

lemma splitFeedCut_no_gs (data : List Nat) (h : 29 ∉ data) :
    splitFeedCut data = (data, none) := by
  unfold splitFeedCut
  rw [rfindPat_eq_none data feed_cut_pattern 29 rfl h]

lemma chunk_write_loop_all_ok (wenv : Nat → WriteOutcome)
    (reinit : ReinitOutcome) (c : Nat) (hc : c ≠ 0) (rem : List Nat)
    (reinited : Bool) (idx : Nat)
    (hok : ∀ j, idx ≤ j → wenv j = .ok) :
    chunk_write_loop wenv reinit c rem reinited idx =
      ⟨chunksOf c rem, chunkSizes c rem.length, .done⟩ := by
  have H : ∀ n (rem : List Nat), rem.length = n → ∀ (reinited : Bool) (idx : Nat),
      (∀ j, idx ≤ j → wenv j = .ok) →
      chunk_write_loop wenv reinit c rem reinited idx =
        ⟨chunksOf c rem, chunkSizes c rem.length, .done⟩ := by
    intro n
    induction n using Nat.strong_induction_on with
    | _ n ih =>
      intro rem hn reinited idx hok
      subst hn
      by_cases hrem : rem = []
      · subst hrem
        rw [chunk_write_loop, chunksOf, chunkSizes]
        simp
      · have hlen : rem.length ≠ 0 :=
          fun hh => hrem (List.eq_nil_of_length_eq_zero hh)
        have hd : (rem.drop (min c rem.length)).length < rem.length := by
          simp only [List.length_drop]
          omega
        have e1 : chunksOf c rem =
            rem.take (min c rem.length) :: chunksOf c (rem.drop (min c rem.length)) := by
          rw [chunksOf, dif_neg (by simp [hrem, hc])]
        have e2 : chunkSizes c rem.length =
            min c rem.length :: chunkSizes c (rem.length - min c rem.length) := by
          rw [chunkSizes, if_neg (by omega)]
        rw [chunk_write_loop, dif_neg hrem, dif_neg hc, hok idx le_rfl]
        rw [ih _ hd _ rfl reinited (idx + 1) (fun j hj => hok j (by omega))]
        rw [e1, e2]
        simp only [List.length_drop]
  exact H rem.length rem rfl reinited idx hok

/-- Write-call environment in which every chunk write raises an error
whose text contains the substring timeout. -/
def envTimeoutAlways : Nat → WriteOutcome := fun _ => .err ⟨true, false, false⟩

/-- Write-call environment in which only the first chunk write raises a
timeout error and every later write succeeds. -/
def envFirstTimeout : Nat → WriteOutcome :=
  fun i => if i = 0 then .err ⟨true, false, false⟩ else .ok

lemma chunk_write_loop_timeout_always (reinit : ReinitOutcome) (c : Nat)
    (hc : c ≠ 0) (rem : List Nat) (hrem : rem ≠ []) (idx : Nat) :
    chunk_write_loop envTimeoutAlways reinit c rem false idx =
      match reinit with
      | .failed => ⟨[], [min c rem.length], .oop⟩
      | .okQuiet => ⟨[], [min c rem.length, min c rem.length], .oop⟩
      | .okTestNotReady => ⟨[], [min c rem.length, min c rem.length], .oop⟩
      | .okTestReady => ⟨[], [min c rem.length], .deadlock⟩ := by
  cases reinit with
  | failed =>
    rw [chunk_write_loop, dif_neg hrem, dif_neg hc]
    simp [envTimeoutAlways]
  | okQuiet =>
    have h2 : chunk_write_loop envTimeoutAlways .okQuiet c rem true (idx + 1) =
        ⟨[], [min c rem.length], .oop⟩ := by
      rw [chunk_write_loop, dif_neg hrem, dif_neg hc]
      simp [envTimeoutAlways]
    rw [chunk_write_loop, dif_neg hrem, dif_neg hc]
    simp [envTimeoutAlways, h2]
  | okTestNotReady =>
    have h2 : chunk_write_loop envTimeoutAlways .okTestNotReady c rem true
        (idx + 1) = ⟨[], [min c rem.length], .oop⟩ := by
      rw [chunk_write_loop, dif_neg hrem, dif_neg hc]
      simp [envTimeoutAlways]
    rw [chunk_write_loop, dif_neg hrem, dif_neg hc]
    simp [envTimeoutAlways, h2]
  | okTestReady =>
    rw [chunk_write_loop, dif_neg hrem, dif_neg hc]
    simp [envTimeoutAlways]


lemma chunk_write_loop_first_timeout (c : Nat) (hc : c ≠ 0) (rem : List Nat)
    (hrem : rem ≠ []) :
    chunk_write_loop envFirstTimeout .okQuiet c rem false 0 =
      ⟨chunksOf c rem, min c rem.length :: chunkSizes c rem.length, .done⟩ := by
  rw [chunk_write_loop, dif_neg hrem, dif_neg hc]
  have h0 : envFirstTimeout 0 = .err ⟨true, false, false⟩ := rfl
  rw [h0]
  rw [chunk_write_loop_all_ok envFirstTimeout .okQuiet c hc rem true 1
    (fun j hj => by
      simp only [envFirstTimeout]
      rw [if_neg (by omega)])]
  simp

/-! ## Claim theorems: chunked transmission and timeout recovery -/

/-- C7: a 5000-byte payload (with no detected trailing feed/cut block)
written with chunk size 2048 and no write errors reaches the transport in
exactly 3 writes of sizes 2048, 2048 and 904, in order, covering the
payload exactly, and the submit succeeds. -/
theorem C7_chunk_sizes (penv : ProbeEnv) (payload : List Nat)
    (reinit : ReinitOutcome) (fcOk : Bool)
    (hok : (check_paper_status true penv).paper_ok = true)
    (hlen : payload.length = 5000)
    (hsplit : splitFeedCut payload = (payload, none)) :
    (print_escpos true penv payload 2048 (fun _ => .ok) reinit
        fcOk).map (fun t => t.writes.map List.length) = some [2048, 2048, 904] ∧
    (print_escpos true penv payload 2048 (fun _ => .ok) reinit
        fcOk).map (fun t => t.writes.flatten) = some payload ∧
    (print_escpos true penv payload 2048 (fun _ => .ok) reinit
        fcOk).map SubmitTrace.result = some ⟨true, none⟩ := by
  have hne : payload ≠ [] := by
    intro h
    rw [h] at hlen
    simp at hlen
  have hloop := chunk_write_loop_all_ok (fun _ => .ok) reinit 2048
    (by norm_num) payload false 0 (fun j _ => rfl)
  refine ⟨?_, ?_, ?_⟩
  · simp [print_escpos, hok, hne, hsplit, hloop, chunksOf_lengths, hlen]
    simp [chunkSizes]
  · simp [print_escpos, hok, hne, hsplit, hloop,
      chunksOf_flatten 2048 (by norm_num) payload]
  · simp [print_escpos, hok, hne, hsplit, hloop]

/-- Witness for C7: the all-sevens 5000-byte payload on a clean probe. -/
theorem C7_chunk_sizes_witness :
    (List.replicate 5000 (7 : Nat)).length = 5000 ∧
    (print_escpos true ⟨.ok 0, .ok, .ok 0⟩ (List.replicate 5000 7) 2048
        (fun _ => .ok) .okQuiet true).map (fun t => t.writes.map List.length) =
      some [2048, 2048, 904] ∧
    (print_escpos true ⟨.ok 0, .ok, .ok 0⟩ (List.replicate 5000 7) 2048
        (fun _ => .ok) .okQuiet true).map (fun t => t.writes.flatten) =
      some (List.replicate 5000 7) :=
  ⟨by rw [List.length_replicate],
   (C7_chunk_sizes ⟨.ok 0, .ok, .ok 0⟩ (List.replicate 5000 7) .okQuiet true
     (by decide) (by rw [List.length_replicate])
     (splitFeedCut_no_gs _ (by simp only [List.mem_replicate]; omega))).1,
   (C7_chunk_sizes ⟨.ok 0, .ok, .ok 0⟩ (List.replicate 5000 7) .okQuiet true
     (by decide) (by rw [List.length_replicate])
     (splitFeedCut_no_gs _ (by simp only [List.mem_replicate]; omega))).2.1⟩

lemma print_escpos_attempts_first_timeout (penv : ProbeEnv)
    (payload : List Nat) (c : Nat) (fcOk : Bool)
    (hok : (check_paper_status true penv).paper_ok = true)
    (hne : payload ≠ []) (hc : c ≠ 0)
    (hsplit : splitFeedCut payload = (payload, none)) :
    (print_escpos true penv payload c envFirstTimeout .okQuiet fcOk).map
        SubmitTrace.attempts =
      some (min c payload.length :: chunkSizes c payload.length) := by
  have hloop := chunk_write_loop_first_timeout c hc payload hne
  simp [print_escpos, hok, hne, hsplit, hloop]

/-- C1 counterexample: chunk size 128 (configured floor 64), a 256-byte
payload, a transport whose first chunk write raises a timeout error while
every later write succeeds, and a reinitialization that reconnects without
re-entering the driver.  The claim predicts that the retry of the failed
chunk uses the halved chunk size 64; the source never changes
`current_chunk_size`, so the attempted chunk lengths are `[128, 128, 128]`
— the retry after the timeout again uses 128, not 64. -/
theorem C1_counterexample :
    (print_escpos true ⟨.ok 0, .ok, .ok 0⟩ (List.replicate 256 7) 128
        envFirstTimeout .okQuiet true).map SubmitTrace.attempts =
      some [128, 128, 128] ∧
    (128 : Nat) ≠ 64 := by
  constructor
  · have hne : (List.replicate 256 (7 : Nat)) ≠ [] := by
      intro h
      have h2 := congrArg List.length h
      rw [List.length_replicate, List.length_nil] at h2
      omega
    have hsplit := splitFeedCut_no_gs (List.replicate 256 (7 : Nat))
      (by simp only [List.mem_replicate]; omega)
    rw [print_escpos_attempts_first_timeout ⟨.ok 0, .ok, .ok 0⟩ _ _ _
      (by decide) hne (by norm_num) hsplit]
    rw [List.length_replicate]
    simp [chunkSizes]
  · decide

/-- C1 (amended): on a chunk write error whose text indicates a timeout,
the driver keeps the chunk size unchanged; on the first such failure it
calls `_initialize_printer` once.  If the reinitialization fails, submit
returns error_code OUT_OF_PAPER after the single attempted chunk; if it
reconnects without re-entering the driver (network/serial branch, or a
USB reconnect whose nested test-print probe reports not-ready and so
returns before the lock), the same chunk is retried at the same size
after a short pause and a second timeout returns OUT_OF_PAPER without
raising or retrying further; but on a USB reconnect whose nested
test-print probe reports ready, the re-entrant test print blocks forever
on the already-held non-reentrant print lock and submit never returns
(result `none`). -/
theorem C1_timeout_policy (penv : ProbeEnv) (payload : List Nat) (c : Nat)
    (reinit : ReinitOutcome) (fcOk : Bool)
    (hok : (check_paper_status true penv).paper_ok = true)
    (hne : payload ≠ []) (hc : c ≠ 0)
    (hsplit : splitFeedCut payload = (payload, none)) :
    print_escpos true penv payload c envTimeoutAlways reinit fcOk =
      match reinit with
      | .failed =>
        some ⟨⟨false, some .OUT_OF_PAPER⟩, true, [], [min c payload.length]⟩
      | .okQuiet =>
        some ⟨⟨false, some .OUT_OF_PAPER⟩, true, [],
          [min c payload.length, min c payload.length]⟩
      | .okTestNotReady =>
        some ⟨⟨false, some .OUT_OF_PAPER⟩, true, [],
          [min c payload.length, min c payload.length]⟩
      | .okTestReady => none := by
  cases reinit with
  | failed =>
    have hloop := chunk_write_loop_timeout_always .failed c hc payload hne 0
    simp only [] at hloop
    simp [print_escpos, hok, hne, hsplit, hloop]
  | okQuiet =>
    have hloop := chunk_write_loop_timeout_always .okQuiet c hc payload hne 0
    simp only [] at hloop
    simp [print_escpos, hok, hne, hsplit, hloop]
  | okTestNotReady =>
    have hloop := chunk_write_loop_timeout_always .okTestNotReady c hc
      payload hne 0
    simp only [] at hloop
    simp [print_escpos, hok, hne, hsplit, hloop]
  | okTestReady =>
    have hloop := chunk_write_loop_timeout_always .okTestReady c hc
      payload hne 0
    simp only [] at hloop
    simp [print_escpos, hok, hne, hsplit, hloop]

/-- Witness for C1 (amended): payload `[1, 2, 3]`, chunk size 2048.  A
quiet reconnect gives two attempts of the full 3-byte chunk and then
OUT_OF_PAPER with nothing written; a USB reconnect whose nested test
print finds the printer ready never returns. -/
theorem C1_timeout_policy_witness :
    (check_paper_status true ⟨.ok 0, .ok, .ok 0⟩).paper_ok = true ∧
    print_escpos true ⟨.ok 0, .ok, .ok 0⟩ [1, 2, 3] 2048 envTimeoutAlways
        .okQuiet true =
      some ⟨⟨false, some .OUT_OF_PAPER⟩, true, [], [3, 3]⟩ ∧
    print_escpos true ⟨.ok 0, .ok, .ok 0⟩ [1, 2, 3] 2048 envTimeoutAlways
        .okTestReady true = none := by
  refine ⟨by decide, ?_, ?_⟩
  · have h := C1_timeout_policy ⟨.ok 0, .ok, .ok 0⟩ [1, 2, 3] 2048 .okQuiet
      true (by decide) (by decide) (by decide)
      (splitFeedCut_no_gs _ (by decide))
    simpa using h
  · have h := C1_timeout_policy ⟨.ok 0, .ok, .ok 0⟩ [1, 2, 3] 2048
      .okTestReady true (by decide) (by decide) (by decide)
      (splitFeedCut_no_gs _ (by decide))
    simpa using h
